import Mathlib

/-!
# Verification of the djs-kt dynamic-JSON manager

Shallow embedding of the repository's authority-side document engine
(`src/unnamed/part_000`, the `djs.ts` module), the local named-mutex wrapper
(`src/utils/lockMethod/index.ts`) and the path-selector resolver
(`recursiveSelect`, appended to `src/test.ts`).

Modelling conventions, stated once here:

* JavaScript values reachable in a document are JSON-shaped (the documents are
  persisted through `JSON.stringify`/`JSON.parse`), so the value universe is
  the `Json` inductive below plus the distinguished `undef` (JavaScript
  `undefined`, produced by the selector resolver on missing paths).  JSON
  numbers are modelled as integers; no claim involves fractional numbers.
* Object and array identity is modelled structurally (value semantics): the
  document is a tree, as every persisted JSON document is, so two structurally
  equal subtrees at the same path are the same object.  In-place mutation of
  the reference returned by the selector resolver is rendered as a functional
  update of the document tree at the resolved path (`modifyAt`).
* Non-index string properties on arrays are outside the modelled universe
  (they do not survive `JSON.stringify` and no claim exercises them).
* The cooperative single-threaded async runtime is modelled where a claim
  needs it: by explicit event traces (mutex acquisition / release and the
  body's suspension points) or by oracle parameters for the outcome of an
  awaited step (a worker callback resolving or rejecting, a bounded wait loop
  observing release or timing out).
-/

/-- JavaScript values of the JSON universe, plus `undefined`.
JSON numbers are modelled as integers (see the module comment). -/
inductive Json where
  | null
  | undef
  | bool (b : Bool)
  | num (n : Int)
  | str (s : String)
  | arr (elems : List Json)
  | obj (fields : List (String × Json))
deriving Repr

mutual

/-- Decidable structural equality on `Json` (needed because automatic
derivation does not handle the nesting through `List`). -/
def Json.decEq : (a b : Json) → Decidable (a = b)
  | .null, .null => .isTrue rfl
  | .undef, .undef => .isTrue rfl
  | .bool x, .bool y =>
      if h : x = y then .isTrue (by rw [h])
      else .isFalse (by intro hh; injection hh; contradiction)
  | .num x, .num y =>
      if h : x = y then .isTrue (by rw [h])
      else .isFalse (by intro hh; injection hh; contradiction)
  | .str x, .str y =>
      if h : x = y then .isTrue (by rw [h])
      else .isFalse (by intro hh; injection hh; contradiction)
  | .arr xs, .arr ys =>
      match Json.decEqList xs ys with
      | .isTrue h => .isTrue (by rw [h])
      | .isFalse h => .isFalse (by intro hh; injection hh; contradiction)
  | .obj fs, .obj gs =>
      match Json.decEqFields fs gs with
      | .isTrue h => .isTrue (by rw [h])
      | .isFalse h => .isFalse (by intro hh; injection hh; contradiction)
  | .null, .undef => .isFalse (fun h => Json.noConfusion h)
  | .null, .bool _ => .isFalse (fun h => Json.noConfusion h)
  | .null, .num _ => .isFalse (fun h => Json.noConfusion h)
  | .null, .str _ => .isFalse (fun h => Json.noConfusion h)
  | .null, .arr _ => .isFalse (fun h => Json.noConfusion h)
  | .null, .obj _ => .isFalse (fun h => Json.noConfusion h)
  | .undef, .null => .isFalse (fun h => Json.noConfusion h)
  | .undef, .bool _ => .isFalse (fun h => Json.noConfusion h)
  | .undef, .num _ => .isFalse (fun h => Json.noConfusion h)
  | .undef, .str _ => .isFalse (fun h => Json.noConfusion h)
  | .undef, .arr _ => .isFalse (fun h => Json.noConfusion h)
  | .undef, .obj _ => .isFalse (fun h => Json.noConfusion h)
  | .bool _, .null => .isFalse (fun h => Json.noConfusion h)
  | .bool _, .undef => .isFalse (fun h => Json.noConfusion h)
  | .bool _, .num _ => .isFalse (fun h => Json.noConfusion h)
  | .bool _, .str _ => .isFalse (fun h => Json.noConfusion h)
  | .bool _, .arr _ => .isFalse (fun h => Json.noConfusion h)
  | .bool _, .obj _ => .isFalse (fun h => Json.noConfusion h)
  | .num _, .null => .isFalse (fun h => Json.noConfusion h)
  | .num _, .undef => .isFalse (fun h => Json.noConfusion h)
  | .num _, .bool _ => .isFalse (fun h => Json.noConfusion h)
  | .num _, .str _ => .isFalse (fun h => Json.noConfusion h)
  | .num _, .arr _ => .isFalse (fun h => Json.noConfusion h)
  | .num _, .obj _ => .isFalse (fun h => Json.noConfusion h)
  | .str _, .null => .isFalse (fun h => Json.noConfusion h)
  | .str _, .undef => .isFalse (fun h => Json.noConfusion h)
  | .str _, .bool _ => .isFalse (fun h => Json.noConfusion h)
  | .str _, .num _ => .isFalse (fun h => Json.noConfusion h)
  | .str _, .arr _ => .isFalse (fun h => Json.noConfusion h)
  | .str _, .obj _ => .isFalse (fun h => Json.noConfusion h)
  | .arr _, .null => .isFalse (fun h => Json.noConfusion h)
  | .arr _, .undef => .isFalse (fun h => Json.noConfusion h)
  | .arr _, .bool _ => .isFalse (fun h => Json.noConfusion h)
  | .arr _, .num _ => .isFalse (fun h => Json.noConfusion h)
  | .arr _, .str _ => .isFalse (fun h => Json.noConfusion h)
  | .arr _, .obj _ => .isFalse (fun h => Json.noConfusion h)
  | .obj _, .null => .isFalse (fun h => Json.noConfusion h)
  | .obj _, .undef => .isFalse (fun h => Json.noConfusion h)
  | .obj _, .bool _ => .isFalse (fun h => Json.noConfusion h)
  | .obj _, .num _ => .isFalse (fun h => Json.noConfusion h)
  | .obj _, .str _ => .isFalse (fun h => Json.noConfusion h)
  | .obj _, .arr _ => .isFalse (fun h => Json.noConfusion h)

/-- Decidable equality of `Json` element lists. -/
def Json.decEqList : (xs ys : List Json) → Decidable (xs = ys)
  | [], [] => .isTrue rfl
  | [], _ :: _ => .isFalse (fun h => List.noConfusion h)
  | _ :: _, [] => .isFalse (fun h => List.noConfusion h)
  | x :: xs, y :: ys =>
      match Json.decEq x y with
      | .isFalse h => .isFalse (by intro hh; injection hh; contradiction)
      | .isTrue h1 =>
        match Json.decEqList xs ys with
        | .isTrue h2 => .isTrue (by rw [h1, h2])
        | .isFalse h2 => .isFalse (by intro hh; injection hh; contradiction)

/-- Decidable equality of `Json` field lists. -/
def Json.decEqFields : (fs gs : List (String × Json)) → Decidable (fs = gs)
  | [], [] => .isTrue rfl
  | [], _ :: _ => .isFalse (fun h => List.noConfusion h)
  | _ :: _, [] => .isFalse (fun h => List.noConfusion h)
  | (k, v) :: fs, (l, w) :: gs =>
      if hk : k = l then
        match Json.decEq v w with
        | .isFalse h =>
            .isFalse (by
              intro hh; injection hh with h1 h2; injection h1; contradiction)
        | .isTrue h1 =>
          match Json.decEqFields fs gs with
          | .isTrue h2 => .isTrue (by rw [hk, h1, h2])
          | .isFalse h2 => .isFalse (by intro hh; injection hh; contradiction)
      else
        .isFalse (by intro hh; injection hh with h1 h2; injection h1; contradiction)

end

instance : DecidableEq Json := Json.decEq

/-- JavaScript truthiness of a value (`!!v`). -/
def Json.truthy : Json → Bool
  | .null => false
  | .undef => false
  | .bool b => b
  | .num n => n != 0
  | .str s => s != ""
  | .arr _ => true
  | .obj _ => true

/-- `a || b` on JavaScript values. -/
def jsOr (a b : Json) : Json := if a.truthy then a else b

/-- First binding of key `k` in an object's field list (JavaScript objects
hold at most one binding per key; field order is insertion order). -/
def findField (k : String) : List (String × Json) → Option Json
  | [] => none
  | (k', v) :: rest => if k' == k then some v else findField k rest

/-- Decimal digit value of a character, if it is a digit. -/
def charDigit? (c : Char) : Option Nat :=
  if c.isDigit then some (c.toNat - '0'.toNat) else none

def decDigitsAux : List Char → Nat → Option Nat
  | [], acc => some acc
  | c :: cs, acc =>
      match charDigit? c with
      | some d => decDigitsAux cs (acc * 10 + d)
      | none => none

/-- The natural number a non-empty all-digit string denotes (a structurally
recursive rendering of `String.toNat?`). -/
def decStrToNat? (s : String) : Option Nat :=
  match s.data with
  | [] => none
  | cs => decDigitsAux cs 0

/-- `k` as a canonical array index below `len` (JavaScript array indexing by
string key: only the canonical decimal form of an index hits an element). -/
def arrIndex? (k : String) (len : Nat) : Option Nat :=
  match decStrToNat? k with
  | some n => if toString n == k && n < len then some n else none
  | none => none

/-- Property read `base[k]`: throws (`.error`) on a `null`/`undefined` base,
yields `undefined` for a missing property, the element for a canonical index
of an array.  Properties of primitives other than JSON data (string length,
array `length`, ...) are outside the modelled universe. -/
def getProp : Json → String → Except Unit Json
  | .null, _ => .error ()
  | .undef, _ => .error ()
  | .obj fs, k => .ok ((findField k fs).getD .undef)
  | .arr xs, k =>
      .ok (match arrIndex? k xs.length with
           | some i => xs.getD i .undef
           | none => .undef)
  | _, _ => .ok (.undef)

/-! ## Selector resolution (`recursiveSelect` / `rs`) -/

/-- A selector argument as the operations receive it: a dot-delimited string,
a list of segments, or `null`/`undefined` (some call sites pass
`selector || []`; `recursiveSelect` itself also returns the root for a
nullish selector via its `!selector` check). -/
inductive Sel where
  | str (s : String)
  | list (segs : List String)
  | nil
deriving Repr, DecidableEq

/-- The segment list a selector denotes: a string is split on `"."` with
empty segments dropped (source: `selector.split(".").filter((s) => !!s)`);
a nullish selector denotes the root. -/
def Sel.segs : Sel → List String
  | .str s => (s.splitOn ".").filter (fun seg => seg != "")
  | .list l => l
  | .nil => []

/-- `recursiveSelect` on an explicit segment list: empty selector returns the
value; otherwise recurse into `obj[selector[0]]`, with any thrown property
access (on a `null`/`undefined` base) caught and turned into `undefined`. -/
def rsSegs : List String → Json → Json
  | [], j => j
  | k :: rest, j =>
      match getProp j k with
      | .error _ => .undef
      | .ok v => rsSegs rest v

/-- `recursiveSelect(selector, obj)` (alias `rs`), for any selector form. -/
def recursiveSelect (sel : Sel) (j : Json) : Json := rsSegs sel.segs j

/-! ## In-place mutation through a resolved reference

In the source, mutation operations resolve `target = rs(selector, data)` and
then mutate `target` in place; since `target` is a node of the `data` tree,
the mutation is visible in `data`.  `modifyAt` renders this in value
semantics: it walks the same path `rsSegs` walks (same object-field lookup
and the same canonical array indexing) and rewrites the resolved subtree.
When the path does not resolve to a node of the tree, `rsSegs` yields
`undefined`, the operations' shape checks fail, and no mutation happens,
so those cases leave the tree unchanged here as well. -/

/-- Update the first binding of `k`, or append a new binding (JavaScript
`target[key] = value` on an object keeps insertion order and overwrites an
existing key in place). -/
def setFieldList (fs : List (String × Json)) (k : String) (v : Json) :
    List (String × Json) :=
  match fs with
  | [] => [(k, v)]
  | (k', v') :: rest =>
      if k' == k then (k, v) :: rest else (k', v') :: setFieldList rest k v

/-- `target[key] = value` on a record or array.  On an array, a canonical
in-range index overwrites the element and an index just past the end
appends (further extension pads with `undefined` holes); a non-index key on
an array would create a property outside the JSON universe (dropped by
serialization) and is not modelled.  Unreachable for other shapes: every
call site shape-checks first. -/
def setField (t : Json) (k : String) (v : Json) : Json :=
  match t with
  | .obj fs => .obj (setFieldList fs k v)
  | .arr xs =>
      match decStrToNat? k with
      | some i =>
          if toString i == k then
            if _h : i < xs.length then .arr (xs.set i v)
            else .arr (xs ++ List.replicate (i - xs.length) .undef ++ [v])
          else .arr xs
      | none => .arr xs
  | t => t

/-- Rewrite the subtree at the path `rsSegs` resolves, leaving the tree
unchanged when the path leaves the tree (see the comment above). -/
def modifyAt : List String → (Json → Json) → Json → Json
  | [], f, j => f j
  | k :: rest, f, .obj fs =>
      match findField k fs with
      | some v => .obj (setFieldList fs k (modifyAt rest f v))
      | none => .obj fs
  | k :: rest, f, .arr xs =>
      match arrIndex? k xs.length with
      | some i => .arr (xs.set i (modifyAt rest f (xs.getD i .undef)))
      | none => .arr xs
  | _, _, j => j

/-! ## JavaScript equality and array splice -/

/-- `ToNumber` on the values the claims exercise: booleans, `null`, numbers
and integer-literal strings (the empty string converts to `0`); `undefined`
and non-numeric strings convert to NaN (`none`).  Objects and arrays would go
through `ToPrimitive`, which no claim exercises; they are kept out of the
coercing branch of `looseEq` below. -/
def toNumber? : Json → Option Int
  | .bool b => some (if b then 1 else 0)
  | .num n => some n
  | .null => some 0
  | .str s => if s == "" then some 0 else (s.toInt?)
  | _ => none

/-- JavaScript strict equality `===` on the modelled universe: same type and
same value; object/array identity is structural here (the document is a
tree, see the module comment). -/
def strictEq (a b : Json) : Bool := a == b

/-- JavaScript loose equality `==` on the modelled universe: equal types
compare as `===`; `null` and `undefined` equal only each other; the
remaining primitive cross-type pairs compare by `ToNumber`.  Cross-type
comparisons involving objects/arrays (`ToPrimitive`) are not exercised by
any claim and yield `false`. -/
def looseEq (a b : Json) : Bool :=
  match a, b with
  | .null, .null => true
  | .null, .undef => true
  | .undef, .null => true
  | .undef, .undef => true
  | .null, _ => false
  | _, .null => false
  | .undef, _ => false
  | _, .undef => false
  | .num x, .num y => x == y
  | .str x, .str y => x == y
  | .bool x, .bool y => x == y
  | .arr xs, .arr ys => Json.arr xs == Json.arr ys
  | .obj fs, .obj gs => Json.obj fs == Json.obj gs
  | .arr _, .obj _ => false
  | .obj _, .arr _ => false
  | a, b =>
      match toNumber? a, toNumber? b with
      | some x, some y => x == y
      | _, _ => false

/-- `Array.prototype.splice(start, deleteCount)`: clamps `start` into the
array (negative counts from the end) and `deleteCount` into `[0, len-start]`,
returning `(removed, remaining)`. -/
def jsSplice (xs : List Json) (start delCount : Int) : List Json × List Json :=
  let len := xs.length
  let s : Nat := if start < 0 then (len + start).toNat else min start.toNat len
  let d : Nat := min (max delCount 0).toNat (len - s)
  ((xs.drop s).take d, xs.take s ++ xs.drop (s + d))

/-! ## Shape predicates from the operations' guards -/

/-- `typeof target == "object" && !!target && !Array.isArray(target)`
(the guard of `setDirect`, lines 185): a non-null, non-array record. -/
def isRecordTarget : Json → Bool
  | .obj _ => true
  | _ => false

/-- `typeof target === "object" && Array.isArray(target)` (the guard of the
array operations). -/
def isArrayTarget : Json → Bool
  | .arr _ => true
  | _ => false

/-- `typeof target === "object" && !!target` (the guard of the `set` branch
of `batchSetDirect`, line 281): any non-null object, arrays included. -/
def isNonNullObject : Json → Bool
  | .obj _ => true
  | .arr _ => true
  | _ => false

/-- `typeof target[itemIndex] == "object"` (line 253): in JavaScript this is
true for records, arrays and `null`. -/
def typeofIsObject : Json → Bool
  | .obj _ => true
  | .arr _ => true
  | .null => true
  | _ => false

/-- `!key` applied to the optional `key` argument of
`removeItemFromArray` / `updateItemInArray`: absent or empty-string keys are
falsy and select the identity-comparison mode. -/
def keyFalsy : Option String → Bool
  | none => true
  | some s => s == ""

/-- `findIndex` with a predicate that can throw (`ti[key]` on a `null` or
`undefined` element throws a TypeError, which propagates). -/
def findMatchIdx (pred : Json → Except Unit Bool) : List Json → Nat → Except Unit (Option Nat)
  | [], _ => .ok none
  | x :: xs, i =>
      match pred x with
      | .error e => .error e
      | .ok true => .ok (some i)
      | .ok false => findMatchIdx pred xs (i + 1)

/-! ## Mutation bodies

Each `…Direct` operation's body (the async function handed to `lockMethod`)
loads the snapshot, resolves the selector, shape-checks, mutates in place and
invokes `update`.  A body is modelled as a function of the loaded snapshot
returning the value its promise fulfils with, the snapshot after the
in-place mutation, and whether `update(...)` was invoked. -/

structure BodyOut where
  ret : Json
  data : Json
  persisted : Bool
deriving Repr, DecidableEq

/-- Body of `setDirect` (part_000 lines 178-192): resolve `selector || []`;
if the target is a non-null non-array record, write `target[key] = value`,
call `update(data)` and return `true`; otherwise return `false` without
mutating or persisting. -/
def setBody (sel : Sel) (key : String) (value : Json) (data : Json) : BodyOut :=
  let target := recursiveSelect sel data
  if isRecordTarget target then
    ⟨.bool true, modifyAt sel.segs (fun t => setField t key value) data, true⟩
  else
    ⟨.bool false, data, false⟩

/-- Body of `spliceDirect` (lines 294-304): on an array target, splice and
return the removed elements; otherwise return `false`. -/
def spliceBody (sel : Sel) (startIndex deleteCount : Int) (data : Json) : BodyOut :=
  match recursiveSelect sel data with
  | .arr xs =>
      let (removed, remaining) := jsSplice xs startIndex deleteCount
      ⟨.arr removed, modifyAt sel.segs (fun _ => .arr remaining) data, true⟩
  | _ => ⟨.bool false, data, false⟩

/-- The element-matching predicate of `removeItemFromArrayDirect`
(lines 222-228): with a falsy `key`, `ti == item` (loose equality); with a
key, `ti[key] == item[key]` (the property reads can throw). -/
def removeMatchPred (item : Json) (key : Option String) (ti : Json) : Except Unit Bool :=
  if keyFalsy key then .ok (looseEq ti item)
  else do
    let kv := key.getD ""
    let a ← getProp ti kv
    let b ← getProp item kv
    .ok (looseEq a b)

/-- Body of `removeItemFromArrayDirect` (lines 218-239): on an array target,
find the first matching element; if found, `target.splice(itemIndex, 1)`,
persist and return `true`; if not found return `false`; on a non-array
target return `false`. -/
def removeItemBody (sel : Sel) (item : Json) (key : Option String) (data : Json) :
    Except Unit BodyOut :=
  match recursiveSelect sel data with
  | .arr xs => do
      match ← findMatchIdx (removeMatchPred item key) xs 0 with
      | some i =>
          let remaining := (jsSplice xs (Int.ofNat i) 1).2
          .ok ⟨.bool true, modifyAt sel.segs (fun _ => .arr remaining) data, true⟩
      | none => .ok ⟨.bool false, data, false⟩
  | _ => .ok ⟨.bool false, data, false⟩

/-- The element-matching predicate of `updateItemInArrayDirect`
(lines 245-251): with a falsy `key`, `ti === item` (strict equality); with a
key, `ti[key] == item[key]`. -/
def updateMatchPred (item : Json) (key : Option String) (ti : Json) : Except Unit Bool :=
  if keyFalsy key then .ok (strictEq ti item)
  else do
    let kv := key.getD ""
    let a ← getProp ti kv
    let b ← getProp item kv
    .ok (looseEq a b)

/-- The spread `{...old}` of a value whose `typeof` is `"object"`: a record
spreads its fields, an array spreads to index-keyed fields, `null` spreads
to nothing. -/
def spreadFields : Json → List (String × Json)
  | .obj fs => fs
  | .arr xs => xs.enum.map (fun p => (toString p.1, p.2))
  | _ => []

/-- The replacement element built at lines 254-257:
`{...target[itemIndex], updatedItem}` — the spread of the old element plus
one property literally named `"updatedItem"` holding `updatedItem` (the
shorthand property writes the binding's name, it does not spread the
value). -/
def updatedElem (old updatedItem : Json) : Json :=
  .obj (setFieldList (spreadFields old) "updatedItem" updatedItem)

/-- Body of `updateItemInArrayDirect` (lines 241-269): on an array target,
find the first matching element; if found, replace it by
`{...old, updatedItem}` when `typeof old == "object"` and by `updatedItem`
otherwise, persist and return `true`; else return `false`. -/
def updateItemBody (sel : Sel) (item updatedItem : Json) (key : Option String)
    (data : Json) : Except Unit BodyOut :=
  match recursiveSelect sel data with
  | .arr xs => do
      match ← findMatchIdx (updateMatchPred item key) xs 0 with
      | some i =>
          let old := xs.getD i .undef
          let newElem := if typeofIsObject old then updatedElem old updatedItem
                         else updatedItem
          .ok ⟨.bool true, modifyAt sel.segs (fun _ => .arr (xs.set i newElem)) data, true⟩
      | none => .ok ⟨.bool false, data, false⟩
  | _ => .ok ⟨.bool false, data, false⟩

/-! ## Batch -/

inductive QType where
  | push
  | unshift
  | set
deriving Repr, DecidableEq

/-- `JsonUpdateQuery` (part_000 lines 10-15). -/
structure JsonUpdateQuery where
  type : QType
  selector : Sel
  key : String
  value : Json
deriving Repr, DecidableEq

/-- One iteration of the loop in `batchSetDirect` (lines 273-290): `push` and
`unshift` require an array target, `set` requires only
`typeof target === "object" && !!target` (so arrays are accepted); a failed
guard skips the query. -/
def applyQuery (data : Json) (q : JsonUpdateQuery) : Json :=
  match q.type with
  | .push =>
      match recursiveSelect q.selector data with
      | .arr xs => modifyAt q.selector.segs (fun _ => .arr (xs ++ [q.value])) data
      | _ => data
  | .unshift =>
      match recursiveSelect q.selector data with
      | .arr xs => modifyAt q.selector.segs (fun _ => .arr (q.value :: xs)) data
      | _ => data
  | .set =>
      let target := recursiveSelect q.selector data
      if isNonNullObject target then
        modifyAt q.selector.segs (fun t => setField t q.key q.value) data
      else data

/-- Body of `batchSetDirect` (lines 271-292): apply the queries in order to
one loaded snapshot, then persist once; the body returns `undefined`. -/
def batchSetBody (queries : List JsonUpdateQuery) (data : Json) : BodyOut :=
  ⟨.undef, queries.foldl applyQuery data, true⟩

/-! ## Serialization -/

mutual

/-- `JSON.stringify` on the modelled universe (compact form, as the source
writes it).  String escaping is not modelled: no claim exercises strings
containing characters that JSON escapes.  `undefined` inside an array
serializes as `null`; an `undefined` object field would be dropped, but no
modelled document stores one. -/
def Json.stringify : Json → String
  | .null => "null"
  | .undef => "null"
  | .bool b => if b then "true" else "false"
  | .num n => toString n
  | .str s => "\"" ++ s ++ "\""
  | .arr xs => "[" ++ Json.stringifyList xs ++ "]"
  | .obj fs => "\x7b" ++ Json.stringifyFields fs ++ "\x7d"

def Json.stringifyList : List Json → String
  | [] => ""
  | [x] => Json.stringify x
  | x :: xs => Json.stringify x ++ "," ++ Json.stringifyList xs

def Json.stringifyFields : List (String × Json) → String
  | [] => ""
  | [(k, v)] => "\"" ++ k ++ "\":" ++ Json.stringify v
  | (k, v) :: fs => "\"" ++ k ++ "\":" ++ Json.stringify v ++ "," ++ Json.stringifyFields fs

end

/-! ## The backing store and the authority's load/persist pair

A document's backing store (part_000): `inMemory` is the live `inMemory`
object inside the authority; `jsonFile` is one file holding the serialized
document (modelled by the parsed value it holds, `none` when the file does
not exist; `JSON.parse` after `JSON.stringify` is the identity on the
modelled universe); `redis` is one key holding the serialized text (`none`
when the key is unset).  The store kind also fixes which branches of
`getAllData` and `update` run. -/

inductive Store where
  | mem (v : Json)
  | file (content : Option Json)
  | redis (content : Option Json)
deriving Repr, DecidableEq

/-- `getAllData` (part_000 lines 156-168).  For `inMemory` it returns the
live object; for `redis` it returns `await redisClient.get(uniqueEventId)` —
the raw serialized STRING (there is no `JSON.parse` on this branch), or
`null` when the key is unset; for `jsonFile` it parses the file when it
exists and yields `{}` otherwise.  Finally `return result || {}`. -/
def getAllData : Store → Json
  | .mem v => jsOr v (.obj [])
  | .redis (some v) => jsOr (.str v.stringify) (.obj [])
  | .redis none => jsOr .null (.obj [])
  | .file (some v) => jsOr v (.obj [])
  | .file none => jsOr (.obj []) (.obj [])

/-- `update` (part_000 lines 170-176): `jsonFile` rewrites the file,
`redis` rewrites the key; there is NO branch for `inMemory`, so persisting
an in-memory document is a no-op. -/
def update (s : Store) (updatedData : Json) : Store :=
  match s with
  | .mem v => .mem v
  | .file _ => .file (some updatedData)
  | .redis _ => .redis (some updatedData)

/-- For `inMemory`, `getAllData` hands out the live `inMemory` object
itself, so the bodies' in-place mutations update the store directly,
independently of `update`. -/
def writeBack (s : Store) (mutated : Json) : Store :=
  match s with
  | .mem _ => .mem mutated
  | s => s

/-- Run one mutation body against a store: load the snapshot, run the body,
reflect the in-place mutation (aliasing, for `inMemory`), then run `update`
if the body invoked it. -/
def runMutation (s : Store) (body : Json → BodyOut) : Json × Store :=
  let out := body (getAllData s)
  let s1 := writeBack s out.data
  (out.ret, if out.persisted then update s1 out.data else s1)

/-- `get` on the authority (part_000 lines 538-540): plain
`rs(selector, await getAllData())`, with no mutual exclusion. -/
def getOp (s : Store) (sel : Sel) : Json := recursiveSelect sel (getAllData s)

/-- Body of `updateJsonFromProvided` (lines 329-331), the `replaceAll`
operation: `return await update(newData)` — it neither loads the snapshot
nor touches the live `inMemory` object, it only calls `update`. -/
def updateJsonFromProvidedOp (s : Store) (newData : Json) : Store :=
  update s newData

/-! ## The lockMethod wrapper and a call's resolved value

`lockMethod` inside `makeDynamicJson` (part_000 lines 109-131) wraps each
body in a function run under the process-local named mutex
(`utils/lockMethod`, which resolves the outer promise with
`await originalMethod(...args)`).  The wrapped function awaits the redis
lock and then executes `method(...args)` WITH NEITHER `await` NOR `return`:
the body's promise is discarded, so when the redis lock is acquired the
wrapper fulfils with `undefined` whatever the body later returns, and the
body keeps running detached (its store effects still happen). -/

def lockedCall (redisLocked : Bool) (uniqueEventId : String) (s : Store)
    (body : Json → BodyOut) : Except String (Json × Store) :=
  if redisLocked then
    let (_bodyRet, s') := runMutation s body
    .ok (.undef, s')
  else
    .error ("failed to acquire redis Lock " ++ uniqueEventId)

/-- The full `setDirect` call: `lockMethod` applied to `setBody`. -/
def setDirectCall (redisLocked : Bool) (id : String) (s : Store)
    (sel : Sel) (key : String) (value : Json) : Except String (Json × Store) :=
  lockedCall redisLocked id s (setBody sel key value)

/-- The full `spliceDirect` call. -/
def spliceDirectCall (redisLocked : Bool) (id : String) (s : Store)
    (sel : Sel) (startIndex deleteCount : Int) : Except String (Json × Store) :=
  lockedCall redisLocked id s (spliceBody sel startIndex deleteCount)

/-- The full `removeItemFromArrayDirect` call (the body's possible TypeError
rejects the detached body's promise, which nobody awaits; the wrapper still
fulfils with `undefined`, so for the resolved value and the store we run the
body and keep its effects when it does not throw). -/
def removeItemDirectCall (redisLocked : Bool) (id : String) (s : Store)
    (sel : Sel) (item : Json) (key : Option String) : Except String (Json × Store) :=
  lockedCall redisLocked id s (fun data =>
    match removeItemBody sel item key data with
    | .ok out => out
    | .error _ => ⟨.undef, data, false⟩)

/-- The full `updateItemInArrayDirect` call. -/
def updateItemDirectCall (redisLocked : Bool) (id : String) (s : Store)
    (sel : Sel) (item updatedItem : Json) (key : Option String) :
    Except String (Json × Store) :=
  lockedCall redisLocked id s (fun data =>
    match updateItemBody sel item updatedItem key data with
    | .ok out => out
    | .error _ => ⟨.undef, data, false⟩)

/-! ## Event-trace model of concurrent mutation calls (the named mutex)

One mutation call issued in the authority process generates, in program
order, the events below.  Derivation from the source: `AsyncLock.acquire`
grants the name (`utils/lockMethod` line 23) — `acq`; the wrapper awaits
`lockRedis()` (a no-op resolves for non-redis sources), then calls
`method(...args)` (part_000 line 115) WITHOUT `await`, so the body runs
synchronously only until its first suspension, `await getAllData()`
(line 183); the wrapper's `finally` runs `releaseRedis()` un-awaited and the
wrapper returns, resolving the `acquire` callback, so AsyncLock releases the
name — `rel`; the detached body then resumes: it finishes loading the
snapshot (`load`), applies the mutation (`apply`, lines 184-186) and calls
`update(data)` (`persist`, line 187).  A scheduler may interleave the events
of distinct calls but preserves each call's program order, and the mutex
admits at most one holder of the name at a time. -/

inductive MEv where
  | acq (tid : Nat)
  | rel (tid : Nat)
  | load (tid : Nat)
  | apply (tid : Nat)
  | persist (tid : Nat)
deriving Repr, DecidableEq

def MEv.tid : MEv → Nat
  | .acq t => t
  | .rel t => t
  | .load t => t
  | .apply t => t
  | .persist t => t

/-- The events one mutation call generates, in program order (see above):
the mutex section covers only the wrapper, which returns at the body's first
`await`; the load-apply-persist body runs after the release. -/
def lockedMutationEvents (tid : Nat) : List MEv :=
  [.acq tid, .rel tid, .load tid, .apply tid, .persist tid]

/-- `t` is a schedule of two concurrent mutation calls 1 and 2: its
projection to each call is that call's program order, and it contains
nothing else. -/
def isScheduleOfTwo (t : List MEv) : Bool :=
  t.filter (fun e => e.tid == 1) == lockedMutationEvents 1 &&
  t.filter (fun e => e.tid == 2) == lockedMutationEvents 2 &&
  t.length == 10

def mutexStep : Option (Option Nat) → MEv → Option (Option Nat)
  | some none, .acq i => some (some i)
  | some (some i), .rel j => if i == j then some none else none
  | some st, .load _ => some st
  | some st, .apply _ => some st
  | some st, .persist _ => some st
  | _, _ => none

/-- The trace respects the named mutex: at most one holder at a time, and
releases only by the holder. -/
def mutexOk (t : List MEv) : Bool :=
  (t.foldl mutexStep (some none)).isSome

def MEv.isBody : MEv → Bool
  | .load _ => true
  | .apply _ => true
  | .persist _ => true
  | _ => false

/-- The two calls' load-apply-persist bodies do not overlap: one body's
events all precede the other's. -/
def bodiesSerialized (t : List MEv) : Bool :=
  let tids := (t.filter MEv.isBody).map MEv.tid
  tids == [1, 1, 1, 2, 2, 2] || tids == [2, 2, 2, 1, 1, 1]

/-! ## The authority's release dispatch (worker listener)

State relevant to a `release` request: the current explicit lock token
`lockId` (`null` or the minted number) and the token the request presents
(`msg.query?.lockId`, absent for a worker that holds none).  The listener
(part_000 lines 420-525) first gates on a held token: if a token is active
and the presented one differs, it awaits `waitForLockIdRelease()`
(lines 341-351), which returns only once `lockId` is `null` and throws
`"Could not acquire lock for operation"` after 30 attempts; a thrown error
is caught at line 517 and sent back as an error response.  The `release`
branch (lines 445-460) then throws if no token is active, throws if the
presented token mismatches, and otherwise clears the token and replies
`true`.  Before the token gate runs, the listener gates on the
authority-busy flag (lines 426-429): if `primaryLock.locked` — the
authority's own `transaction()` is running — it awaits
`waitForPrimaryLockIdRelease()` (lines 372-383), which returns once the
flag is cleared and throws `"Could not acquire primary lock for operation"`
after 30 attempts; that throw too is caught at line 517 and answered as an
error response, with the token untouched.  The state
`primaryLock.locked ∧ lockId ≠ null` is reachable: a worker's `lock` query
that passed the busy gate just before the authority's `transaction()` set
the flag mints a token afterwards, since the handler never re-checks the
flag.  The outcomes of the two bounded waits are oracle parameters:
`primaryWaitReleased` / `waitReleased` being `true` means the wait observed
the busy flag / the token cleared (by the transaction finishing, a
concurrent release, or expiry), `false` means the 30 attempts were
exhausted. -/

inductive Resp where
  | ok (v : Json)
  | err (msg : String)
deriving Repr, DecidableEq

/-- The `release` branch itself (lines 445-460), as a function of the token
state at branch entry; returns the new token state and the response sent. -/
def releaseBranch (lockId : Option Nat) (presented : Option Nat) : Option Nat × Resp :=
  match lockId with
  | none => (none, .err "there is no lock to release")
  | some l =>
      if presented ≠ some l then (some l, .err "you do not own this lock")
      else (none, .ok (.bool true))

/-- A `release` request through the listener: the authority-busy gate
(lines 426-429), then the token-mismatch gate (lines 430-433), then the
`release` branch (lines 445-460).  `primaryBusy` is `primaryLock.locked`
when the request is dispatched; a busy flag whose bounded wait exhausts is
answered with an error response and leaves the token untouched. -/
def handleRelease (primaryBusy primaryWaitReleased : Bool)
    (lockId : Option Nat) (presented : Option Nat)
    (waitReleased : Bool) : Option Nat × Resp :=
  if primaryBusy && !primaryWaitReleased then
    (lockId, .err "Could not acquire primary lock for operation")
  else
    match lockId with
    | some l =>
        if presented ≠ some l then
          if waitReleased then
            -- the wait returned, which it does only once `lockId` is null;
            -- the branch then runs against the cleared state
            releaseBranch none presented
          else
            (some l, .err "Could not acquire lock for operation")
        else releaseBranch (some l) presented
    | none => releaseBranch none presented

/-! ## The worker proxy's transaction

part_000 lines 572-587: send a `lock` request; run the callback against the
proxy itself inside `try`; `catch` only logs the callback's error
(`console.error`); `finally` awaits a `release` request.  The outcomes of
the awaited `lock` request, of the callback and of the awaited `release`
request are oracle parameters.  The function returns the ordered list of
observable events and the outcome the transaction's own promise settles
with. -/

inductive WEv where
  | lockSent
  | releaseSent
  | logged (e : String)
deriving Repr, DecidableEq

def workerTransaction (lockOutcome : Except String Nat)
    (cbOutcome : Except String Unit) (releaseOutcome : Except String Json) :
    List WEv × Except String Unit :=
  match lockOutcome with
  | .error e => ([.lockSent], .error e)
  | .ok _ =>
      let afterCb : List WEv × Except String Unit :=
        match cbOutcome with
        | .ok _ => ([], .ok ())
        | .error e => ([.logged e], .ok ())
      match releaseOutcome with
      | .ok _ => ([.lockSent] ++ afterCb.1 ++ [.releaseSent], afterCb.2)
      | .error e => ([.lockSent] ++ afterCb.1 ++ [.releaseSent], .error e)

/-! ## Manager construction -/

inductive SourceTy where
  | jsonFile (fileFullPath : String)
  | redis (uniqueIdentifier : String)
  | inMemory (uniqueIdentifier : String)
deriving Repr, DecidableEq

/-- part_000 line 84. -/
def uniqueEventIdOf : SourceTy → String
  | .jsonFile p => p
  | .redis u => u
  | .inMemory u => u

/-- The guard at the top of `makeDynamicJson` (part_000 lines 86-90): a
`redis` source on a manager built without a redis client (`redisLock` is set
exactly when a client was supplied) throws before any document state is
created; otherwise construction proceeds (the created document is
represented by its identity — the remaining construction steps are not
needed by any claim). -/
def makeDynamicJson (hasRedisClient : Bool) (source : SourceTy)
    (_initialContent : Option Json) : Except String String :=
  if (match source with | .redis _ => true | _ => false) && !hasRedisClient then
    .error ("this manager cannot create redis based client with redis " ++
      "connection, please create new manager with a valid redis connection")
  else
    .ok (uniqueEventIdOf source)

/-! # Claims -/

/-- Claim C1, refuted (code bug): the claim says the load-apply-persist
body of one mutation completes before the body of a concurrently issued
mutation begins, because every mutation holds the Local Named Mutex.  In
the code, the wrapper built by `lockMethod` (part_000 lines 109-131) calls
`method(...args)` with neither `await` nor `return`, so the mutex section
ends at the body's first suspension (`await getAllData()`): there is a
schedule of two concurrent mutation calls that respects the mutex yet
interleaves the two bodies (both load before either persists). -/
theorem c1_mutation_bodies_can_interleave :
    ∃ t : List MEv, isScheduleOfTwo t = true ∧ mutexOk t = true ∧
      bodiesSerialized t = false :=
  ⟨[.acq 1, .rel 1, .acq 2, .rel 2, .load 1, .load 2, .apply 2, .persist 2,
    .apply 1, .persist 1], by decide⟩

/-- Claim C2, refuted (code bug): the claim says the authority's `set`
resolves to `true` on a record target and to `false` otherwise.  Because
the `lockMethod` wrapper discards the body's promise, `setDirect` resolves
to `undefined` in both cases; the detached body does compute `true`/`false`,
and does write and persist on a record target and leave an array target
untouched. -/
theorem c2_set_resolves_undefined :
    setDirectCall true "doc" (.file (some (.obj [("a", .obj [])])))
        (.list ["a"]) "k" (.num 1)
      = .ok (.undef, .file (some (.obj [("a", .obj [("k", .num 1)])])))
    ∧ (setBody (.list ["a"]) "k" (.num 1) (.obj [("a", .obj [])])).ret = .bool true
    ∧ setDirectCall true "doc" (.file (some (.obj [("xs", .arr [])])))
        (.list ["xs"]) "k" (.num 1)
      = .ok (.undef, .file (some (.obj [("xs", .arr [])])))
    ∧ (setBody (.list ["xs"]) "k" (.num 1) (.obj [("xs", .arr [])])).ret = .bool false
    ∧ Json.undef ≠ Json.bool true ∧ Json.undef ≠ Json.bool false :=
  ⟨rfl, rfl, rfl, rfl, by decide, by decide⟩

/-- Claim C3, refuted (code bug): the claim says that for each of the three
source kinds, after `replaceAll(content)` a `get([])` returns exactly
`content`.  In the code, `update` has no `inMemory` branch, so `replaceAll`
is a no-op on an in-memory document; and the `redis` branch of `getAllData`
returns the stored text without `JSON.parse`, so `get([])` yields the
serialized string.  Only the `jsonFile` kind behaves as claimed (for truthy
content). -/
theorem c3_replaceAll_get_roundtrip_fails :
    updateJsonFromProvidedOp (.mem (.obj [("counter", .num 0)])) (.obj [("a", .num 1)])
      = .mem (.obj [("counter", .num 0)])
    ∧ getOp (updateJsonFromProvidedOp (.mem (.obj [("counter", .num 0)]))
        (.obj [("a", .num 1)])) (.list [])
      = .obj [("counter", .num 0)]
    ∧ Json.obj [("counter", .num 0)] ≠ .obj [("a", .num 1)]
    ∧ getOp (updateJsonFromProvidedOp (.redis none) (.obj [("a", .num 1)])) (.list [])
      = .str "\x7b\"a\":1\x7d"
    ∧ Json.str "\x7b\"a\":1\x7d" ≠ .obj [("a", .num 1)]
    ∧ getOp (updateJsonFromProvidedOp (.file none) (.obj [("a", .num 1)])) (.list [])
      = .obj [("a", .num 1)] :=
  ⟨rfl, rfl, by decide, rfl, by decide, rfl⟩

/-- Claim C4, refuted (code bug): the claim says `updateItemInArray` merges
`updatedItem`'s own fields onto a located record element and returns `true`.
In the code the replacement is the object literal
`{...target[itemIndex], updatedItem}`, whose shorthand property stores
`updatedItem` wholesale under the literal key `"updatedItem"` instead of
spreading its fields; and, as with every mutation, the call resolves to
`undefined` rather than `true` because the `lockMethod` wrapper discards the
body's result. -/
theorem c4_updateItemInArray_does_not_merge :
    updateItemDirectCall true "doc"
        (.mem (.obj [("xs", .arr [.obj [("id", .num 1), ("a", .num 1)]])]))
        (.list ["xs"]) (.obj [("id", .num 1)]) (.obj [("a", .num 2)]) (some "id")
      = .ok (.undef, .mem (.obj [("xs", .arr
          [.obj [("id", .num 1), ("a", .num 1), ("updatedItem", .obj [("a", .num 2)])]])]))
    ∧ Json.obj [("id", .num 1), ("a", .num 1), ("updatedItem", .obj [("a", .num 2)])]
        ≠ .obj [("id", .num 1), ("a", .num 2)] :=
  ⟨rfl, by decide⟩

/-- Claim C5, refuted (code bug): the claim says `splice` resolves to the
removed sub-sequence.  The detached body does remove exactly the
sub-sequence, leaving the remainder contiguous and in order, but the call
resolves to `undefined` because the `lockMethod` wrapper discards the
body's result. -/
theorem c5_splice_resolves_undefined :
    spliceDirectCall true "doc" (.mem (.obj [("xs", .arr [.num 10, .num 20, .num 30])]))
        (.list ["xs"]) 1 1
      = .ok (.undef, .mem (.obj [("xs", .arr [.num 10, .num 30])]))
    ∧ (spliceBody (.list ["xs"]) 1 1
        (.obj [("xs", .arr [.num 10, .num 20, .num 30])])).ret = .arr [.num 20]
    ∧ Json.undef ≠ Json.arr [.num 20] :=
  ⟨rfl, rfl, by decide⟩

/-- Claim C6, refuted (code bug): the claim says `removeItemFromArray` with
a key resolves to `true` after removing the first element whose key field
equals the item's, and to `false` (leaving the array unchanged) when none
matches.  The detached body does exactly that removal and computes those
Booleans, but the call resolves to `undefined` in both cases because the
`lockMethod` wrapper discards the body's result. -/
theorem c6_removeItemFromArray_resolves_undefined :
    removeItemDirectCall true "doc"
        (.mem (.obj [("xs", .arr [.obj [("id", .num 1)], .obj [("id", .num 2)]])]))
        (.list ["xs"]) (.obj [("id", .num 1)]) (some "id")
      = .ok (.undef, .mem (.obj [("xs", .arr [.obj [("id", .num 2)]])]))
    ∧ removeItemBody (.list ["xs"]) (.obj [("id", .num 1)]) (some "id")
        (.obj [("xs", .arr [.obj [("id", .num 1)], .obj [("id", .num 2)]])])
      = .ok ⟨.bool true, .obj [("xs", .arr [.obj [("id", .num 2)]])], true⟩
    ∧ removeItemDirectCall true "doc"
        (.mem (.obj [("xs", .arr [.obj [("id", .num 1)], .obj [("id", .num 2)]])]))
        (.list ["xs"]) (.obj [("id", .num 9)]) (some "id")
      = .ok (.undef, .mem (.obj [("xs", .arr [.obj [("id", .num 1)], .obj [("id", .num 2)]])]))
    ∧ removeItemBody (.list ["xs"]) (.obj [("id", .num 9)]) (some "id")
        (.obj [("xs", .arr [.obj [("id", .num 1)], .obj [("id", .num 2)]])])
      = .ok ⟨.bool false, .obj [("xs", .arr [.obj [("id", .num 1)], .obj [("id", .num 2)]])], false⟩
    ∧ Json.undef ≠ Json.bool true :=
  ⟨rfl, rfl, rfl, rfl, by decide⟩

/-- Claim C7, refuted as stated (counterexample): a `release` presenting
the MATCHING token can still draw an error response, with the token left
uncleared, when the request arrives while the authority's own transaction
holds the `primaryLock` busy flag and `waitForPrimaryLockIdRelease`
exhausts its 30 attempts (part_000 lines 426-429 and 372-383; the state
with both the busy flag and a minted token is reachable, see the section
comment above).  Concretely: active token 7, presented token 7, busy flag
set and its wait timing out. -/
theorem c7_matching_release_can_fail_when_authority_busy :
    handleRelease true false (some 7) (some 7) true
      = (some 7, Resp.err "Could not acquire primary lock for operation")
    ∧ handleRelease true false (some 7) (some 7) true
        ≠ ((none : Option Nat), Resp.ok (.bool true)) :=
  ⟨rfl, by decide⟩

/-- Claim C7 as amended: a `release` request with no active token or a
mismatched token always draws an error response, whatever the two bounded
waits observe; and a `release` presenting the matching token clears it and
is acknowledged with `true` provided the authority-busy gate passes (the
authority is not inside its own transaction, or the busy flag clears
within the bounded wait). -/
theorem c7_release_dispatch (pb pw w : Bool) (lockId presented : Option Nat) :
    ((lockId = none ∨ presented ≠ lockId) →
      ∃ m, (handleRelease pb pw lockId presented w).2 = Resp.err m)
    ∧ (∀ l, lockId = some l → presented = some l → (pb = false ∨ pw = true) →
        handleRelease pb pw lockId presented w = (none, Resp.ok (.bool true))) := by
  constructor
  · intro h
    cases hb : pb && !pw with
    | true =>
        exact ⟨"Could not acquire primary lock for operation",
          by simp [handleRelease, hb]⟩
    | false =>
        cases lockId with
        | none =>
            exact ⟨"there is no lock to release",
              by simp [handleRelease, hb, releaseBranch]⟩
        | some l =>
            have hne : presented ≠ some l := by
              rcases h with h | h
              · exact absurd h (by simp)
              · exact h
            cases w with
            | false =>
                exact ⟨"Could not acquire lock for operation",
                  by simp [handleRelease, hb, hne]⟩
            | true =>
                refine ⟨"there is no lock to release", ?_⟩
                simp [handleRelease, hb, hne, releaseBranch]
  · intro l hl hp hgate
    subst hl; subst hp
    have hb : (pb && !pw) = false := by
      rcases hgate with h | h
      · simp [h]
      · simp [h]
    simp [handleRelease, hb, releaseBranch]

/-- Witness for the amended C7 at concrete inputs: with the authority idle,
a mismatched release (token 3 against active token 5, wait exhausted) draws
an error response, and a matching release (token 7) clears the token and is
acknowledged. -/
theorem c7_release_dispatch_witness :
    (∃ m, (handleRelease false true (some 5) (some 3) false).2 = Resp.err m)
    ∧ handleRelease false true (some 7) (some 7) true = (none, Resp.ok (.bool true)) :=
  ⟨(c7_release_dispatch false true false (some 5) (some 3)).1 (Or.inr (by decide)),
   (c7_release_dispatch false true true (some 7) (some 7)).2 7 rfl rfl (Or.inl rfl)⟩

/-- Claim C8, confirmed: once the worker proxy's transaction has acquired
its lock, its event sequence is always the callback's events followed by a
`release` request — the release is sent whether the callback resolves or
rejects — and a rejecting callback only produces a log entry: the
transaction's own outcome is exactly the release request's outcome,
independent of the callback's, so the callback's error is never rethrown to
the transaction's caller. -/
theorem c8_worker_transaction_always_releases (t : Nat) (cb : Except String Unit)
    (rel : Except String Json) :
    (workerTransaction (.ok t) cb rel).1
      = [WEv.lockSent] ++
          (match cb with | .ok _ => [] | .error e => [WEv.logged e]) ++
          [WEv.releaseSent]
    ∧ (workerTransaction (.ok t) cb rel).2 = Except.map (fun _ => ()) rel := by
  cases cb <;> cases rel <;> simp [workerTransaction, Except.map]

/-- Claim C9, confirmed: requesting a `redis` (centralizedStore) document
from a manager built without a store client fails with the configuration
error before any document state is created, for every identifier and every
initial content. -/
theorem c9_redis_without_client_rejected (uid : String) (init : Option Json) :
    makeDynamicJson false (.redis uid) init
      = .error ("this manager cannot create redis based client with redis " ++
          "connection, please create new manager with a valid redis connection") := rfl

/-- Claim C10, confirmed: a `set` sub-operation inside `batch` writes its
key whenever the resolved target is a non-null object — in particular an
array — while the standalone `set` body refuses an array target without
mutating or persisting; concretely, on the snapshot
`\x7b xs: [0] \x7d` a batch of one `set` query rewrites element `"0"`,
whereas the standalone `set` with the same arguments returns `false` and
leaves the snapshot unchanged. -/
theorem c10_batch_set_accepts_arrays (data : Json) (sel : Sel) (k : String)
    (v : Json) (xs : List Json) (h : recursiveSelect sel data = .arr xs) :
    applyQuery data ⟨.set, sel, k, v⟩
        = modifyAt sel.segs (fun t => setField t k v) data
    ∧ setBody sel k v data = ⟨.bool false, data, false⟩
    ∧ batchSetBody [⟨.set, .list ["xs"], "0", .num 5⟩] (.obj [("xs", .arr [.num 0])])
        = ⟨.undef, .obj [("xs", .arr [.num 5])], true⟩
    ∧ setBody (.list ["xs"]) "0" (.num 5) (.obj [("xs", .arr [.num 0])])
        = ⟨.bool false, .obj [("xs", .arr [.num 0])], false⟩
    ∧ Json.obj [("xs", .arr [.num 5])] ≠ .obj [("xs", .arr [.num 0])] := by
  refine ⟨?_, ?_, by rfl, by rfl, by decide⟩
  · simp [applyQuery, h, isNonNullObject]
  · simp [setBody, h, isRecordTarget]

/-- Witness for C10 at a concrete input: the snapshot `\x7b xs: [0] \x7d`
with selector `["xs"]`, whose resolved target is the array `[0]`. -/
theorem c10_batch_set_accepts_arrays_witness :
    applyQuery (.obj [("xs", .arr [.num 0])]) ⟨.set, .list ["xs"], "0", .num 5⟩
        = modifyAt (Sel.list ["xs"]).segs (fun t => setField t "0" (.num 5))
            (.obj [("xs", .arr [.num 0])])
    ∧ setBody (.list ["xs"]) "0" (.num 5) (.obj [("xs", .arr [.num 0])])
        = ⟨.bool false, .obj [("xs", .arr [.num 0])], false⟩
    ∧ batchSetBody [⟨.set, .list ["xs"], "0", .num 5⟩] (.obj [("xs", .arr [.num 0])])
        = ⟨.undef, .obj [("xs", .arr [.num 5])], true⟩
    ∧ setBody (.list ["xs"]) "0" (.num 5) (.obj [("xs", .arr [.num 0])])
        = ⟨.bool false, .obj [("xs", .arr [.num 0])], false⟩
    ∧ Json.obj [("xs", .arr [.num 5])] ≠ .obj [("xs", .arr [.num 0])] :=
  c10_batch_set_accepts_arrays (.obj [("xs", .arr [.num 0])]) (.list ["xs"])
    "0" (.num 5) [.num 0] rfl
